import Mathlib

/-!
Shallow embedding of the helium engine's simulation core
(helium_ecs, helium_collisions, helium_physics, and the tick
orchestration in helium/src/lib.rs), with theorems settling the claims
about it.

Numeric modelling: the Rust code computes over f32.  We embed the
arithmetic exactly over the rationals.  Every concrete input appearing
in a theorem below is a small dyadic rational on which the f32
operations performed by the code (addition, subtraction,
multiplication, division by 2, comparison, abs, min, max) are exact,
so the rational evaluation coincides with the f32 evaluation.

The two places the source calls a normalize routine
(StationaryPlaneCollider::new and the plane branch of
RectangleCollider::is_colliding) divide by a square root of a squared
magnitude.  The constructor's documentation states the plane stores a
normalized normal; on a unit quaternion / unit vector the f32
normalize divides by sqrt(1) = 1 and is the exact identity.  We model
those calls as the identity and only instantiate theorems at identity
orientations, where this is exact.
-/

namespace HeliumModel

/-- cgmath Vector3<f32>, embedded over the rationals. -/
structure Vec3 where
  x : ℚ
  y : ℚ
  z : ℚ
deriving DecidableEq, Repr

namespace Vec3

/-- Vector3::zero. -/
def zero : Vec3 := ⟨0, 0, 0⟩

/-- Componentwise addition. -/
def add (a b : Vec3) : Vec3 := ⟨a.x + b.x, a.y + b.y, a.z + b.z⟩

/-- Componentwise subtraction. -/
def sub (a b : Vec3) : Vec3 := ⟨a.x - b.x, a.y - b.y, a.z - b.z⟩

/-- Scalar multiplication (vector * scalar in cgmath). -/
def smul (a : Vec3) (c : ℚ) : Vec3 := ⟨a.x * c, a.y * c, a.z * c⟩

/-- InnerSpace::dot. -/
def dot (a b : Vec3) : ℚ := a.x * b.x + a.y * b.y + a.z * b.z

/-- Vector3::cross. -/
def cross (a b : Vec3) : Vec3 :=
  ⟨a.y * b.z - a.z * b.y, a.z * b.x - a.x * b.z, a.x * b.y - a.y * b.x⟩

end Vec3

/-- cgmath Quaternion<f32> (scalar part s, vector part v). -/
structure Quat where
  s : ℚ
  v : Vec3
deriving DecidableEq, Repr

namespace Quat

/-- Quaternion::one, the identity rotation. -/
def one : Quat := ⟨1, Vec3.zero⟩

/-- cgmath rotate_vector (Mul<Vector3> for Quaternion):
tmp = q.v x vec + vec * q.s; result = (q.v x tmp) * 2 + vec. -/
def rotate_vector (q : Quat) (vec : Vec3) : Vec3 :=
  let tmp := (q.v.cross vec).add (vec.smul q.s)
  ((q.v.cross tmp).smul 2).add vec

/-- The source calls InnerSpace::normalize on the plane orientation
quaternion.  We model it as the identity, which is exact (also in f32)
when the quaternion already has magnitude 1; all theorems below
instantiate planes at Quat.one only. -/
def normalizeUnit (q : Quat) : Quat := q

end Quat

/-- The source calls InnerSpace::normalize on the plane's local
normal.  Modelled as the identity, exact (also in f32) when the vector
already has magnitude 1; the plane constructor documents that it
stores a normalized normal, and all theorems below use planes whose
normal is the unit vector (0,1,0). -/
def vNormalizeUnit (v : Vec3) : Vec3 := v

/-- f32::abs. -/
def fabs (x : ℚ) : ℚ := if x < 0 then -x else x

/-- f32::min (NaN-free inputs). -/
def fmin (a b : ℚ) : ℚ := if a ≤ b then a else b

/-- f32::max (NaN-free inputs). -/
def fmax (a b : ℚ) : ℚ := if a ≤ b then b else a

/-- Rust Range<f32>::contains: start ≤ v < end (half-open). -/
def rangeContains (lo hi v : ℚ) : Bool := decide (lo ≤ v) && decide (v < hi)

/-- Minimum of a list of coordinates, as the source's fold with
f32::min.  The source folds through an Option and unwraps it; the
empty case (a panic in the source) is unreachable because the plane
constructor always produces 4 points. -/
def listMin : List ℚ → ℚ
  | [] => 0
  | x :: xs => xs.foldl fmin x

/-- Maximum of a list of coordinates, as the source's fold with
f32::max.  Same empty-case remark as listMin. -/
def listMax : List ℚ → ℚ
  | [] => 0
  | x :: xs => xs.foldl fmax x

/-- helium_collisions::collider::RectangleCollider: full extents
width (x), height (y), length (z), center origin, and the cached
8 corner vertices. -/
structure RectangleCollider where
  width : ℚ
  height : ℚ
  length : ℚ
  origin : Vec3
  vertices : List Vec3
deriving DecidableEq, Repr

namespace RectangleCollider

/-- RectangleCollider::compute_vertices: the 8 corners, in source
order (+++, ++-, -++, -+-, +-+, +--, --+, ---). -/
def compute_vertices (width height length : ℚ) (origin : Vec3) : List Vec3 :=
  let width_2 := width / 2
  let height_2 := height / 2
  let length_2 := length / 2
  [ ⟨origin.x + width_2, origin.y + height_2, origin.z + length_2⟩,
    ⟨origin.x + width_2, origin.y + height_2, origin.z - length_2⟩,
    ⟨origin.x - width_2, origin.y + height_2, origin.z + length_2⟩,
    ⟨origin.x - width_2, origin.y + height_2, origin.z - length_2⟩,
    ⟨origin.x + width_2, origin.y - height_2, origin.z + length_2⟩,
    ⟨origin.x + width_2, origin.y - height_2, origin.z - length_2⟩,
    ⟨origin.x - width_2, origin.y - height_2, origin.z + length_2⟩,
    ⟨origin.x - width_2, origin.y - height_2, origin.z - length_2⟩ ]

/-- RectangleCollider::new. -/
def new (width height length : ℚ) (origin : Vec3) : RectangleCollider :=
  ⟨width, height, length, origin, compute_vertices width height length origin⟩

/-- contains_x for a rectangle: does the rectangle's half-open
x-interval contain the start or the end of the given range. -/
def contains_x (r : RectangleCollider) (lo hi : ℚ) : Bool :=
  let width_2 := r.width / 2
  rangeContains (r.origin.x - width_2) (r.origin.x + width_2) lo ||
    rangeContains (r.origin.x - width_2) (r.origin.x + width_2) hi

/-- contains_y for a rectangle. -/
def contains_y (r : RectangleCollider) (lo hi : ℚ) : Bool :=
  let height_2 := r.height / 2
  rangeContains (r.origin.y - height_2) (r.origin.y + height_2) lo ||
    rangeContains (r.origin.y - height_2) (r.origin.y + height_2) hi

/-- contains_z for a rectangle. -/
def contains_z (r : RectangleCollider) (lo hi : ℚ) : Bool :=
  let length_2 := r.length / 2
  rangeContains (r.origin.z - length_2) (r.origin.z + length_2) lo ||
    rangeContains (r.origin.z - length_2) (r.origin.z + length_2) hi

end RectangleCollider

/-- helium_collisions::collider::StationaryPlaneCollider: width (x),
length (z), origin, the 4 rotated-and-translated corner points, and
the unit local normal. -/
structure StationaryPlaneCollider where
  width : ℚ
  length : ℚ
  origin : Vec3
  plane_points : List Vec3
  local_normal : Vec3
deriving DecidableEq, Repr

namespace StationaryPlaneCollider

/-- The constant PLANE_LOCAL_NORMAL = (0, 1, 0). -/
def plane_local_normal : Vec3 := ⟨0, 1, 0⟩

/-- StationaryPlaneCollider::new: normalizes the orientation (see
Quat.normalizeUnit), builds the 4 local corners of the w x l
rectangle, rotates and translates them, and stores the rotated
normalized normal. -/
def new (width length : ℚ) (origin : Vec3) (orientation : Quat) :
    StationaryPlaneCollider :=
  let width_2 := width / 2
  let length_2 := length / 2
  let q := orientation.normalizeUnit
  let locals : List Vec3 :=
    [ ⟨-width_2, 0, length_2⟩,
      ⟨width_2, 0, length_2⟩,
      ⟨width_2, 0, -length_2⟩,
      ⟨-width_2, 0, -length_2⟩ ]
  let pts := locals.map (fun p => (q.rotate_vector p).add origin)
  ⟨width, length, origin, pts, vNormalizeUnit (q.rotate_vector plane_local_normal)⟩

/-- contains_x for the plane: bounding x-range of the 4 plane points;
if that range is empty (min not < max), tests whether the ARGUMENT
range contains the min, otherwise whether the plane's range contains
the argument's start or end. -/
def contains_x (p : StationaryPlaneCollider) (lo hi : ℚ) : Bool :=
  let xs := p.plane_points.map Vec3.x
  let mn := listMin xs
  let mx := listMax xs
  if ¬ (mn < mx) then rangeContains lo hi mn
  else rangeContains mn mx lo || rangeContains mn mx hi

/-- contains_y for the plane (same shape as contains_x). -/
def contains_y (p : StationaryPlaneCollider) (lo hi : ℚ) : Bool :=
  let ys := p.plane_points.map Vec3.y
  let mn := listMin ys
  let mx := listMax ys
  if ¬ (mn < mx) then rangeContains lo hi mn
  else rangeContains mn mx lo || rangeContains mn mx hi

/-- contains_z for the plane (same shape as contains_x). -/
def contains_z (p : StationaryPlaneCollider) (lo hi : ℚ) : Bool :=
  let zs := p.plane_points.map Vec3.z
  let mn := listMin zs
  let mx := listMax zs
  if ¬ (mn < mx) then rangeContains lo hi mn
  else rangeContains mn mx lo || rangeContains mn mx hi

end StationaryPlaneCollider

/-- The Collider trait object, as a closed sum of its two
implementors (the source downcasts through Any for the plane
special case). -/
inductive Collider where
  | rect (r : RectangleCollider)
  | plane (p : StationaryPlaneCollider)
deriving DecidableEq, Repr

namespace Collider

/-- Trait method origin(). -/
def origin : Collider → Vec3
  | .rect r => r.origin
  | .plane p => p.origin

/-- Trait method width(). -/
def width : Collider → ℚ
  | .rect r => r.width
  | .plane p => p.width

/-- Trait method height(); the plane reports 0. -/
def height : Collider → ℚ
  | .rect r => r.height
  | .plane _ => 0

/-- Trait method length(). -/
def length : Collider → ℚ
  | .rect r => r.length
  | .plane p => p.length

/-- Trait method contains_x, dispatching on the variant. -/
def contains_x : Collider → ℚ → ℚ → Bool
  | .rect r, lo, hi => r.contains_x lo hi
  | .plane p, lo, hi => p.contains_x lo hi

/-- Trait method contains_y, dispatching on the variant. -/
def contains_y : Collider → ℚ → ℚ → Bool
  | .rect r, lo, hi => r.contains_y lo hi
  | .plane p, lo, hi => p.contains_y lo hi

/-- Trait method contains_z, dispatching on the variant. -/
def contains_z : Collider → ℚ → ℚ → Bool
  | .rect r, lo, hi => r.contains_z lo hi
  | .plane p, lo, hi => p.contains_z lo hi

end Collider

namespace RectangleCollider

/-- RectangleCollider::is_colliding_x: asks the other collider
whether it contains this rectangle's half-open x-interval. -/
def is_colliding_x (r : RectangleCollider) (other : Collider) : Bool :=
  let width_2 := r.width / 2
  other.contains_x (r.origin.x - width_2) (r.origin.x + width_2)

/-- RectangleCollider::is_colliding_y. -/
def is_colliding_y (r : RectangleCollider) (other : Collider) : Bool :=
  let height_2 := r.height / 2
  other.contains_y (r.origin.y - height_2) (r.origin.y + height_2)

/-- RectangleCollider::is_colliding_z. -/
def is_colliding_z (r : RectangleCollider) (other : Collider) : Bool :=
  let length_2 := r.length / 2
  other.contains_z (r.origin.z - length_2) (r.origin.z + length_2)

/-- The per-point sign list of the point-in-quadrilateral test inside
RectangleCollider::is_colliding: for each plane point index, the sign
(+1 or -1) of the dot of the plane normal with the cross product of
the two vectors from the projected point to consecutive plane
corners.  The source writes into a fixed [f32; 4]; the constructor
always produces exactly 4 plane points. -/
def planePointSigns (p : StationaryPlaneCollider) (pt : Vec3) : List ℚ :=
  (List.range p.plane_points.length).map (fun i =>
    let a := (p.plane_points.getD i Vec3.zero).sub pt
    let b := (p.plane_points.getD ((i + 1) % p.plane_points.length) Vec3.zero).sub pt
    if Vec3.dot p.local_normal (a.cross b) < 0 then (-1 : ℚ) else 1)

/-- RectangleCollider::is_colliding.  The plane special case computes
the signed distance of all 8 cached vertices to the plane; if the sum
of absolute distances differs from the absolute value of the summed
distances (the box straddles the plane), it projects every vertex
onto the plane and reports a collision when some projected point has
all 4 edge signs equal.  Every other path (including the general
box-box case, whose interval test is commented out in the source)
returns false. -/
def is_colliding (r : RectangleCollider) (other : Collider) : Bool :=
  match other with
  | .plane p =>
    let distances := r.vertices.map (fun v => Vec3.dot p.local_normal (v.sub p.origin))
    let s := distances.foldl (fun a d => a + d) 0
    let abs_sum := distances.foldl (fun a d => a + fabs d) 0
    if abs_sum ≠ fabs s then
      let n := vNormalizeUnit p.local_normal
      let projected := r.vertices.map (fun v =>
        let dist := Vec3.dot (v.sub p.origin) n
        v.sub (n.smul dist))
      projected.any (fun pt =>
        let signs := planePointSigns p pt
        decide (signs = List.replicate 4 (1 : ℚ)) ||
          decide (signs = List.replicate 4 (-1 : ℚ)))
    else false
  | .rect _ => false

/-- RectangleCollider::snap: pushes the origin out along all three
axes and recomputes the vertices.  The branches run sequentially on
the mutable origin; faithfully to the source, the z branch's second
comparison reads origin.y (the value already updated by the y branch)
rather than origin.z. -/
def snap (r : RectangleCollider) (other : Collider) : RectangleCollider :=
  let self_width_2 := r.width / 2
  let self_height_2 := r.height / 2
  let self_length_2 := r.length / 2
  let other_width_2 := other.width / 2
  let other_height_2 := other.height / 2
  let other_length_2 := other.length / 2
  let ox :=
    if r.origin.x < other.origin.x then other.origin.x - other_width_2 - self_width_2
    else if r.origin.x > other.origin.x then other.origin.x + other_width_2 + self_width_2
    else r.origin.x
  let oy :=
    if r.origin.y < other.origin.y then other.origin.y - other_height_2 - self_height_2
    else if r.origin.y > other.origin.y then other.origin.y + other_height_2 + self_height_2
    else r.origin.y
  let oz :=
    if r.origin.z < other.origin.z then other.origin.z - other_length_2 - self_length_2
    else if oy > other.origin.y then other.origin.z + other_length_2 + self_length_2
    else r.origin.z
  let o := Vec3.mk ox oy oz
  ⟨r.width, r.height, r.length, o, compute_vertices r.width r.height r.length o⟩

/-- RectangleCollider::snap_x. -/
def snap_x (r : RectangleCollider) (other : Collider) : RectangleCollider :=
  let self_width_2 := r.width / 2
  let other_width_2 := other.width / 2
  let ox :=
    if r.origin.x < other.origin.x then other.origin.x - other_width_2 - self_width_2
    else if r.origin.x > other.origin.x then other.origin.x + other_width_2 + self_width_2
    else r.origin.x
  let o := Vec3.mk ox r.origin.y r.origin.z
  ⟨r.width, r.height, r.length, o, compute_vertices r.width r.height r.length o⟩

/-- RectangleCollider::snap_y. -/
def snap_y (r : RectangleCollider) (other : Collider) : RectangleCollider :=
  let self_height_2 := r.height / 2
  let other_height_2 := other.height / 2
  let oy :=
    if r.origin.y < other.origin.y then other.origin.y - other_height_2 - self_height_2
    else if r.origin.y > other.origin.y then other.origin.y + other_height_2 + self_height_2
    else r.origin.y
  let o := Vec3.mk r.origin.x oy r.origin.z
  ⟨r.width, r.height, r.length, o, compute_vertices r.width r.height r.length o⟩

/-- RectangleCollider::snap_z (this single-axis variant compares z in
both branches). -/
def snap_z (r : RectangleCollider) (other : Collider) : RectangleCollider :=
  let self_length_2 := r.length / 2
  let other_length_2 := other.length / 2
  let oz :=
    if r.origin.z < other.origin.z then other.origin.z - other_length_2 - self_length_2
    else if r.origin.z > other.origin.z then other.origin.z + other_length_2 + self_length_2
    else r.origin.z
  let o := Vec3.mk r.origin.x r.origin.y oz
  ⟨r.width, r.height, r.length, o, compute_vertices r.width r.height r.length o⟩

/-- RectangleCollider::set_origin: replaces the origin and recomputes
the cached vertices. -/
def set_origin (r : RectangleCollider) (new_origin : Vec3) : RectangleCollider :=
  ⟨r.width, r.height, r.length, new_origin,
    compute_vertices r.width r.height r.length new_origin⟩

end RectangleCollider

/-- helium_physics::gravity::Gravity: a velocity accumulated over
time and a constant acceleration.  The source field velocity is pub;
acceleration is private. -/
structure Gravity where
  velocity : Vec3
  acceleration : Vec3
deriving DecidableEq, Repr

namespace Gravity

/-- Gravity::new: zero velocity, the given gravitational constant. -/
def new (gravitational_constant : Vec3) : Gravity :=
  ⟨Vec3.zero, gravitational_constant⟩

/-- Gravity::update_gravity: velocity += acceleration * dt.  The
source reads dt from Instant::elapsed (real time); it is modelled as
an explicit parameter. -/
def update_gravity (dt : ℚ) (g : Gravity) : Gravity :=
  ⟨g.velocity.add (g.acceleration.smul dt), g.acceleration⟩

/-- Gravity::set_gravity: replaces the acceleration, keeps velocity. -/
def set_gravity (new_accel : Vec3) (g : Gravity) : Gravity :=
  ⟨g.velocity, new_accel⟩

/-- Gravity::kill_velocity: resets velocity to the zero vector. -/
def kill_velocity (g : Gravity) : Gravity :=
  ⟨Vec3.zero, g.acceleration⟩

end Gravity

/-- helium_compatibility::transform::Transform3d: position, rotation
and the dirty flag. -/
structure Transform3d where
  position : Vec3
  rotation : Quat
  update_flag : Bool
deriving DecidableEq, Repr

namespace Transform3d

/-- Transform3d::update_position: sets the position and raises the
dirty flag. -/
def update_position (new_position : Vec3) (t : Transform3d) : Transform3d :=
  ⟨new_position, t.rotation, true⟩

/-- Transform3d::add_position: adds to the position and raises the
dirty flag. -/
def add_position (position_add : Vec3) (t : Transform3d) : Transform3d :=
  ⟨t.position.add position_add, t.rotation, true⟩

/-- Transform3d::update: clears the dirty flag after the renderer has
been notified. -/
def update (t : Transform3d) : Transform3d :=
  ⟨t.position, t.rotation, false⟩

end Transform3d

/-- helium_compatibility::model::Model3d, reduced to the
renderer-index link used by the tick orchestration (the model path is
an opaque handle consumed only at creation). -/
structure Model3d where
  renderer_index : Option Nat
deriving DecidableEq, Repr

/-- A renderer instance (position and rotation) as pushed to the
render backend by update_instances. -/
structure Instance where
  position : Vec3
  rotation : Quat
deriving DecidableEq, Repr

/-- Association-list lookup, standing for HashMap::get keyed by
entity id.  List order models one HashMap iteration order (the order
is unspecified in the source). -/
def lookupA {α : Type} : List (Nat × α) → Nat → Option α
  | [], _ => none
  | (k, v) :: rest, e => if k = e then some v else lookupA rest e

/-- HashMap::get_mut followed by a mutation: rewrite the entry at the
key if present, leave the map unchanged otherwise (keys are unique). -/
def modifyA {α : Type} (m : List (Nat × α)) (e : Nat) (f : α → α) : List (Nat × α) :=
  m.map (fun kv => if kv.1 = e then (kv.1, f kv.2) else kv)

/-- The render backend's instance buffer keyed by object index.
update_instances replaces the instance at an index (or records it if
new); the backend itself is out of scope. -/
def setInstance (ren : List (Nat × Instance)) (idx : Nat) (inst : Instance) :
    List (Nat × Instance) :=
  match lookupA ren idx with
  | some _ => modifyA ren idx (fun _ => inst)
  | none => ren ++ [(idx, inst)]

/-- The component state seen by one tick of the update loop in
helium/src/lib.rs: the five component tables the physics stages query
through HeliumManager::query/query_mut (each Option models the
query's explicit result - none is a missing table and makes a stage
return early), plus the renderer's instance buffer.  Tables are
association lists keyed by entity id. -/
structure TickWorld where
  planes : Option (List (Nat × StationaryPlaneCollider))
  rects : Option (List (Nat × RectangleCollider))
  transforms : Option (List (Nat × Transform3d))
  gravities : Option (List (Nat × Gravity))
  models : Option (List (Nat × Model3d))
  renderer : List (Nat × Instance)
deriving DecidableEq, Repr

/-- The body of the inner plane loop of handle_gravity_collisions
(helium/src/lib.rs): if the rectangle's y-interval test against the
plane reports a collision, snap the rectangle's y, kill the entity's
velocity if it has a Gravity, and write the snapped origin into the
entity's Transform if it has one; otherwise leave all three
unchanged. -/
def collisionPairStep (e : Nat) (p : StationaryPlaneCollider)
    (r : RectangleCollider) (gs : List (Nat × Gravity))
    (ts : List (Nat × Transform3d)) :
    RectangleCollider × List (Nat × Gravity) × List (Nat × Transform3d) :=
  if r.is_colliding_y (.plane p) then
    let r1 := r.snap_y (.plane p)
    let gs1 := modifyA gs e Gravity.kill_velocity
    let ts1 := modifyA ts e (Transform3d.update_position r1.origin)
    (r1, gs1, ts1)
  else (r, gs, ts)

/-- One rectangle's pass of handle_gravity_collisions: fold the pair
step over every stationary plane. -/
def collisionPlanesFold (e : Nat) (ps : List (Nat × StationaryPlaneCollider))
    (r : RectangleCollider) (gs : List (Nat × Gravity))
    (ts : List (Nat × Transform3d)) :
    RectangleCollider × List (Nat × Gravity) × List (Nat × Transform3d) :=
  ps.foldl (fun st pe => collisionPairStep e pe.2 st.1 st.2.1 st.2.2) (r, gs, ts)

/-- The outer rectangle loop of handle_gravity_collisions.  After the
plane loop, the source assigns the entity's Transform position
directly into the collider's origin field (rectangle_colider.origin =
transform.position) WITHOUT recomputing the cached vertices; that
direct field write is modelled verbatim. -/
def collisionRectsGo (ps : List (Nat × StationaryPlaneCollider)) :
    List (Nat × RectangleCollider) → List (Nat × Gravity) →
    List (Nat × Transform3d) →
    List (Nat × RectangleCollider) × List (Nat × Gravity) × List (Nat × Transform3d)
  | [], gs, ts => ([], gs, ts)
  | (e, r) :: rest, gs, ts =>
    let st1 := collisionPlanesFold e ps r gs ts
    let r2 :=
      match lookupA st1.2.2 e with
      | some t =>
        { st1.1 with origin := t.position }
      | none => st1.1
    let tail := collisionRectsGo ps rest st1.2.1 st1.2.2
    ((e, r2) :: tail.1, tail.2.1, tail.2.2)

/-- handle_gravity_collisions (helium/src/lib.rs): returns the world
unchanged if any of the four tables it queries is missing, otherwise
runs the rectangle loop over all stationary planes. -/
def handleGravityCollisions (w : TickWorld) : TickWorld :=
  match w.planes, w.rects, w.transforms, w.gravities with
  | some ps, some rs, some ts, some gs =>
    let out := collisionRectsGo ps rs gs ts
    { w with rects := some out.1, gravities := some out.2.1, transforms := some out.2.2 }
  | _, _, _, _ => w

/-- The gravity loop of handle_gravity: advance each Gravity by dt,
then add velocity * dt to the entity's Transform position when the
entity has a Transform.  The source reads both time deltas from the
same Instant via elapsed(); both reads are modelled as the one
parameter dt.  (The source also builds an entity_update_list that it
never uses.) -/
def gravityGo (dt : ℚ) :
    List (Nat × Gravity) → List (Nat × Transform3d) →
    List (Nat × Gravity) × List (Nat × Transform3d)
  | [], ts => ([], ts)
  | (e, g) :: rest, ts =>
    let g1 := Gravity.update_gravity dt g
    let ts1 := modifyA ts e (Transform3d.add_position (g1.velocity.smul dt))
    let tail := gravityGo dt rest ts1
    ((e, g1) :: tail.1, tail.2)

/-- handle_gravity (helium/src/lib.rs): early return if the Transform
or Gravity table is missing, otherwise the gravity loop. -/
def handleGravity (dt : ℚ) (w : TickWorld) : TickWorld :=
  match w.transforms, w.gravities with
  | some ts, some gs =>
    let out := gravityGo dt gs ts
    { w with gravities := some out.1, transforms := some out.2 }
  | _, _ => w

/-- The transform loop of update_transforms_to_renderer: skip clean
transforms; for a dirty one, look up the entity's Model3d and its
renderer index - both lookups are unwrapped in the source, so a
missing model or unset index is a panic, modelled as none - push the
instance to the renderer, and clear the dirty flag. -/
def rendererGo (ms : List (Nat × Model3d)) :
    List (Nat × Transform3d) → List (Nat × Instance) →
    Option (List (Nat × Transform3d) × List (Nat × Instance))
  | [], ren => some ([], ren)
  | (e, t) :: rest, ren =>
    if t.update_flag = false then
      match rendererGo ms rest ren with
      | some out => some ((e, t) :: out.1, out.2)
      | none => none
    else
      match lookupA ms e with
      | none => none
      | some m =>
        match m.renderer_index with
        | none => none
        | some idx =>
          let ren1 := setInstance ren idx ⟨t.position, t.rotation⟩
          let t1 := t.update
          match rendererGo ms rest ren1 with
          | some out => some ((e, t1) :: out.1, out.2)
          | none => none

/-- update_transforms_to_renderer (helium/src/lib.rs): early return
if the Transform or Model3d table is missing, otherwise the transform
loop; none models the panic of the unwraps inside the loop. -/
def updateTransformsToRenderer (w : TickWorld) : Option TickWorld :=
  match w.transforms, w.models with
  | some ts, some ms =>
    match rendererGo ms ts w.renderer with
    | some out => some { w with transforms := some out.1, renderer := out.2 }
    | none => none
  | _, _ => some w

/-- The physics portion of one iteration of the update-thread loop in
Helium::resumed (helium/src/lib.rs): handle_gravity_collisions, then
handle_gravity, then update_transforms_to_renderer, in the source's
call order. -/
def tick (dt : ℚ) (w : TickWorld) : Option TickWorld :=
  updateTransformsToRenderer (handleGravity dt (handleGravityCollisions w))

/-- The entity id type.  Modelled from the spec: the source declares
mod entity but src/helium_ecs/src/entity.rs is absent from the
sources; the spec describes Entity as an opaque unsigned integer
identity, modelled as Nat. -/
abbrev Entity : Type := Nat

/-- A type-erased component table.  The component values themselves
are irrelevant to the claims; entries map entity ids to a payload. -/
abbrev Table : Type := List (Nat × Nat)

/-- helium_ecs::world::World: the running entity counter, the live
entity count, and the vector of type-erased component tables, each
tagged with its runtime type (the tag models TypeId). -/
structure World where
  entity_count : Nat
  num_entities : Nat
  component_maps : List (Nat × Table)
deriving DecidableEq, Repr

namespace World

/-- World::new. -/
def initial : World := ⟨0, 0, []⟩

/-- World::new_entity: returns the current counter value and
increments both the counter and the live count. -/
def new_entity (w : World) : World × Nat :=
  (⟨w.entity_count + 1, w.num_entities + 1, w.component_maps⟩, w.entity_count)

/-- World::remove_entity: drops the entity's entry from every
component table and decrements the live count; the entity counter is
untouched.  (Rust's unsigned decrement would panic in debug builds on
an empty world; Nat truncation stands in for that out-of-scope
case.) -/
def remove_entity (w : World) (e : Nat) : World :=
  ⟨w.entity_count,
    w.num_entities - 1,
    w.component_maps.map (fun tm => (tm.1, tm.2.filter (fun p => p.1 ≠ e)))⟩

/-- The scan of World::borrow_component_map over the type-erased
vector: the first table whose runtime type matches. -/
def findTable : List (Nat × Table) → Nat → Option Table
  | [], _ => none
  | (tg, m) :: rest, t => if tg = t then some m else findTable rest t

/-- World::borrow_component_map: Some table or None when no table of
that type exists (the RefCell borrow itself is out of scope). -/
def borrow_component_map (w : World) (t : Nat) : Option Table :=
  findTable w.component_maps t

/-- World::borrow_component_map_mut: identical scan; only the borrow
flavor differs. -/
def borrow_component_map_mut (w : World) (t : Nat) : Option Table :=
  findTable w.component_maps t

end World

namespace HeliumECS

/-- HeliumECS::query: borrow_component_map followed by
Option::unwrap.  Except.error models the unwrap panic on a missing
table. -/
def query (w : World) (t : Nat) : Except Unit Table :=
  match w.borrow_component_map t with
  | some m => Except.ok m
  | none => Except.error ()

/-- HeliumECS::query_mut: borrow_component_map_mut followed by
Option::unwrap, with the same panic modelling. -/
def query_mut (w : World) (t : Nat) : Except Unit Table :=
  match w.borrow_component_map_mut t with
  | some m => Except.ok m
  | none => Except.error ()

end HeliumECS

/-- A World operation: the claims concern the id behavior of
new_entity interleaved with remove_entity. -/
inductive WorldOp where
  | newEntity
  | removeEntity (e : Nat)
deriving DecidableEq, Repr

/-- Run a sequence of operations against a World, collecting the ids
returned by each new_entity call in order. -/
def runOps : World → List WorldOp → World × List Nat
  | w, [] => (w, [])
  | w, .newEntity :: ops =>
    let wn := w.new_entity
    let tail := runOps wn.1 ops
    (tail.1, wn.2 :: tail.2)
  | w, .removeEntity e :: ops => runOps (w.remove_entity e) ops

/-! Concrete instances used by the theorems. -/

/-- Extract the RectangleCollider of an entity from a TickWorld
(defaulting to a degenerate box; the theorems use it only where the
entry exists). -/
def getRectD (w : TickWorld) (e : Nat) : RectangleCollider :=
  (w.rects.bind (fun rs => lookupA rs e)).getD (RectangleCollider.new 0 0 0 Vec3.zero)

/-- The spec's interval-overlap predicate, written from the spec's
words for comparison with the code: the half-open intervals
[a1, a2) and [b1, b2) intersect. -/
def specHalfOpenOverlap (a1 a2 b1 b2 : ℚ) : Prop :=
  max a1 b1 < min a2 b2

instance (a1 a2 b1 b2 : ℚ) : Decidable (specHalfOpenOverlap a1 a2 b1 b2) :=
  inferInstanceAs (Decidable (max a1 b1 < min a2 b2))

/-- A 20-unit box centered at the origin (its x-interval strictly
contains the small box's). -/
def cexBigBox : RectangleCollider := RectangleCollider.new 20 20 20 Vec3.zero

/-- A 2-unit box centered at the origin. -/
def cexSmallBox : RectangleCollider := RectangleCollider.new 2 2 2 Vec3.zero

/-- The unrotated 10 x 10 stationary plane at the world origin used
by the scenario claims. -/
def unitPlane : StationaryPlaneCollider :=
  StationaryPlaneCollider.new 10 10 Vec3.zero Quat.one

/-- A world on which the gravity-first stage order and the source's
collisions-first stage order produce different results: the entity's
box collider starts 3 units above a ground plane with a downward
velocity that carries it to 1 unit this tick.  The collider origin is
synced from the Transform inside the collision stage, so running
gravity before collisions leaves a different collider origin than the
source's order. -/
def gravityFirstWorld : TickWorld :=
  { planes := some [(1, unitPlane)]
    rects := some [(0, RectangleCollider.new 2 2 2 ⟨0, 3, 0⟩)]
    transforms := some [(0, ⟨⟨0, 3, 0⟩, Quat.one, false⟩)]
    gravities := some [(0, ⟨⟨0, -2, 0⟩, Vec3.zero⟩)]
    models := some [(0, ⟨some 0⟩)]
    renderer := [(0, ⟨⟨0, 3, 0⟩, Quat.one⟩)] }

/-- A world exhibiting the stale-vertices direct write: the entity's
collider sits at the origin while its Transform says (0,10,0); the
plane is far away, so no snap fires and the collision stage's trailing
direct origin write is the only mutation. -/
def staleWriteWorld : TickWorld :=
  { planes := some [(1, StationaryPlaneCollider.new 10 10 ⟨0, 100, 0⟩ Quat.one)]
    rects := some [(0, RectangleCollider.new 2 2 2 Vec3.zero)]
    transforms := some [(0, ⟨⟨0, 10, 0⟩, Quat.one, false⟩)]
    gravities := some [(0, Gravity.new Vec3.zero)]
    models := none
    renderer := [] }

/-- The box of the C8 witness: overlapping the ground plane's
y-extent but 100 units away on x and z. -/
def farAboveBox : RectangleCollider := RectangleCollider.new 2 2 2 ⟨100, 1/2, 100⟩

/-! Helper lemmas. -/

theorem findTable_eq_none_iff (l : List (Nat × Table)) (t : Nat) :
    World.findTable l t = none ↔ ∀ p ∈ l, p.1 ≠ t := by
  induction l with
  | nil => simp [World.findTable]
  | cons hd tl ih =>
    obtain ⟨tg, m⟩ := hd
    by_cases h : tg = t
    · subst h
      simp [World.findTable]
    · simp [World.findTable, h, ih]

theorem new_entity_fst_count (w : World) :
    (w.new_entity).1.entity_count = w.entity_count + 1 := rfl

theorem new_entity_snd (w : World) : (w.new_entity).2 = w.entity_count := rfl

theorem remove_entity_count (w : World) (e : Nat) :
    (w.remove_entity e).entity_count = w.entity_count := rfl

theorem runOps_count_le (ops : List WorldOp) :
    ∀ w : World, w.entity_count ≤ (runOps w ops).1.entity_count := by
  induction ops with
  | nil => intro w; simp [runOps]
  | cons op rest ih =>
    intro w
    cases op with
    | newEntity =>
      have h1 := ih (w.new_entity).1
      have h2 := new_entity_fst_count w
      simp only [runOps]
      omega
    | removeEntity e =>
      have h1 := ih (w.remove_entity e)
      have h2 := remove_entity_count w e
      simp only [runOps]
      omega

theorem runOps_ids_ge (ops : List WorldOp) :
    ∀ (w : World) (i : Nat), i ∈ (runOps w ops).2 → w.entity_count ≤ i := by
  induction ops with
  | nil => intro w i h; simp [runOps] at h
  | cons op rest ih =>
    intro w i h
    cases op with
    | newEntity =>
      simp only [runOps, List.mem_cons] at h
      have h2 := new_entity_snd w
      have h3 := new_entity_fst_count w
      rcases h with h | h
      · omega
      · have h4 := ih (w.new_entity).1 i h
        omega
    | removeEntity e =>
      simp only [runOps] at h
      have h2 := remove_entity_count w e
      have h4 := ih (w.remove_entity e) i h
      omega

theorem runOps_ids_pairwise (ops : List WorldOp) :
    ∀ w : World, ((runOps w ops).2).Pairwise (· < ·) := by
  induction ops with
  | nil => intro w; simp [runOps]
  | cons op rest ih =>
    intro w
    cases op with
    | newEntity =>
      simp only [runOps]
      refine List.Pairwise.cons ?_ (ih (w.new_entity).1)
      intro i hi
      have h2 := new_entity_snd w
      have h3 := new_entity_fst_count w
      have h4 := runOps_ids_ge rest (w.new_entity).1 i hi
      omega
    | removeEntity e =>
      simpa [runOps] using ih (w.remove_entity e)

/-! Theorems settling the claims. -/

/-- Claim C1: the spec's box-box scenario A says a 5x5x5 box at the
origin collides with a 5x5x5 box at (4,0,0) and with one at (5,0,0),
and not with one at (6,0,0).  The code's RectangleCollider::is_colliding
is hardwired to false outside the plane special case (the interval
test is commented out), so it reports false in all three
configurations - contradicting the repository's own
test_rectangle_colliders_x assertions for the first two. -/
theorem box_box_scenario_hardwired_false :
    (RectangleCollider.new 5 5 5 Vec3.zero).is_colliding
        (.rect (RectangleCollider.new 5 5 5 ⟨4, 0, 0⟩)) = false ∧
    (RectangleCollider.new 5 5 5 Vec3.zero).is_colliding
        (.rect (RectangleCollider.new 5 5 5 ⟨5, 0, 0⟩)) = false ∧
    (RectangleCollider.new 5 5 5 Vec3.zero).is_colliding
        (.rect (RectangleCollider.new 5 5 5 ⟨6, 0, 0⟩)) = false := by
  with_unfolding_all decide

/-- Claim C2 (counterexample): the tick does NOT equal the
gravity-first composition - on gravityFirstWorld the source's order
(collisions, then gravity, then renderer propagation) leaves the
collider origin at (0,3,0) while the claimed gravity-first order
leaves it at (0,1,0). -/
theorem tick_gravity_first_order_refuted :
    tick 1 gravityFirstWorld ≠
      updateTransformsToRenderer
        (handleGravityCollisions (handleGravity 1 gravityFirstWorld)) := by
  with_unfolding_all decide

/-- Claim C2 (amended): every simulation tick executes its physics
stages in the fixed order collision resolution first, then gravity
integration, then dirty-transform propagation to the renderer; the
tick step function is the composition of the three stage functions in
that order. -/
theorem tick_stage_order :
    ∀ (dt : ℚ) (w : TickWorld),
      tick dt w =
        updateTransformsToRenderer (handleGravity dt (handleGravityCollisions w)) :=
  fun _ _ => rfl

/-- Claim C3 (counterexample): on a fresh World with no tables,
HeliumECS::query and query_mut unwrap the absent table and panic
(modelled by Except.error), rather than returning a result the caller
can handle. -/
theorem query_missing_table_panics :
    HeliumECS.query World.initial 0 = Except.error () ∧
      HeliumECS.query_mut World.initial 0 = Except.error () :=
  ⟨rfl, rfl⟩

/-- Claim C3 (amended): World::borrow_component_map(_mut) returns the
explicit "not found" result None exactly when no table of the queried
type exists, and HeliumECS::query/query_mut panic (unwrap on None)
exactly in that case instead of surfacing it to the caller. -/
theorem query_absence_policy :
    ∀ (w : World) (t : Nat),
      (w.borrow_component_map t = none ↔ ∀ p ∈ w.component_maps, p.1 ≠ t) ∧
      (HeliumECS.query w t = Except.error () ↔ w.borrow_component_map t = none) ∧
      (HeliumECS.query_mut w t = Except.error () ↔
        w.borrow_component_map_mut t = none) := by
  intro w t
  refine ⟨findTable_eq_none_iff w.component_maps t, ?_, ?_⟩
  · cases h : w.borrow_component_map t <;> simp [HeliumECS.query, h]
  · cases h : w.borrow_component_map_mut t <;> simp [HeliumECS.query_mut, h]

/-- Claim C4 (counterexample): the 20-unit box's x-interval [-10,10)
strictly contains the 2-unit box's [-1,1), so the spec's
interval-overlap predicate holds, yet is_colliding_x reports false
(neither endpoint of the big interval lies inside the small one). -/
theorem is_colliding_x_containment_miss :
    cexBigBox.is_colliding_x (.rect cexSmallBox) = false ∧
      specHalfOpenOverlap
        (cexBigBox.origin.x - cexBigBox.width / 2)
        (cexBigBox.origin.x + cexBigBox.width / 2)
        (cexSmallBox.origin.x - cexSmallBox.width / 2)
        (cexSmallBox.origin.x + cexSmallBox.width / 2) := by
  constructor
  · with_unfolding_all decide
  · with_unfolding_all decide

/-- Claim C4 (amended): for rectangles a and b and each axis,
a.is_colliding_axis(b) is true iff b's half-open interval on that
axis contains a's interval's start or a's interval's end; in
particular, when a's interval strictly contains b's, the test returns
false even though the intervals intersect. -/
theorem is_colliding_axis_endpoint_characterization :
    ∀ a b : RectangleCollider,
      (a.is_colliding_x (.rect b) = true ↔
        (b.origin.x - b.width / 2 ≤ a.origin.x - a.width / 2 ∧
          a.origin.x - a.width / 2 < b.origin.x + b.width / 2) ∨
        (b.origin.x - b.width / 2 ≤ a.origin.x + a.width / 2 ∧
          a.origin.x + a.width / 2 < b.origin.x + b.width / 2)) ∧
      (a.is_colliding_y (.rect b) = true ↔
        (b.origin.y - b.height / 2 ≤ a.origin.y - a.height / 2 ∧
          a.origin.y - a.height / 2 < b.origin.y + b.height / 2) ∨
        (b.origin.y - b.height / 2 ≤ a.origin.y + a.height / 2 ∧
          a.origin.y + a.height / 2 < b.origin.y + b.height / 2)) ∧
      (a.is_colliding_z (.rect b) = true ↔
        (b.origin.z - b.length / 2 ≤ a.origin.z - a.length / 2 ∧
          a.origin.z - a.length / 2 < b.origin.z + b.length / 2) ∨
        (b.origin.z - b.length / 2 ≤ a.origin.z + a.length / 2 ∧
          a.origin.z + a.length / 2 < b.origin.z + b.length / 2)) := by
  intro a b
  refine ⟨?_, ?_, ?_⟩ <;>
    simp [RectangleCollider.is_colliding_x, RectangleCollider.is_colliding_y,
      RectangleCollider.is_colliding_z, Collider.contains_x, Collider.contains_y,
      Collider.contains_z, RectangleCollider.contains_x, RectangleCollider.contains_y,
      RectangleCollider.contains_z, rangeContains]

/-- Claim C5: RectangleCollider::snap fails the stated push-direction
rule on the z axis: for a 2x2x2 box at (0,0,1/2) against a 2x2x2 box
at the origin (equal x and y, self's z greater), snap applies no z
correction (its +z branch erroneously compares the y coordinates),
leaving the origin at (0,0,1/2), while the single-axis snap_z - which
compares z in both branches as the claim states - pushes the origin
to (0,0,2). -/
theorem snap_z_branch_no_push :
    ((RectangleCollider.new 2 2 2 ⟨0, 0, 1/2⟩).snap
        (.rect (RectangleCollider.new 2 2 2 Vec3.zero))).origin = ⟨0, 0, 1/2⟩ ∧
    ((RectangleCollider.new 2 2 2 ⟨0, 0, 1/2⟩).snap_z
        (.rect (RectangleCollider.new 2 2 2 Vec3.zero))).origin = ⟨0, 0, 2⟩ := by
  with_unfolding_all decide

/-- Claim C6: for the 5x5x5 box at (0, 2.5, 0) whose bottom face
touches the unrotated 10x10 plane at the origin, is_colliding returns
false (all eight signed vertex distances are nonnegative, so the sum
of absolute distances equals the absolute sum and the straddle branch
is skipped), contradicting the repository's own
test_rectangle_plane_collision; the box at (0,6,0) is likewise not
colliding (as the claim states), and a strictly penetrating box at
(0,2,0) IS detected, isolating the failure to the touching case. -/
theorem box_plane_touching_not_detected :
    (RectangleCollider.new 5 5 5 ⟨0, 5/2, 0⟩).is_colliding (.plane unitPlane) = false ∧
    (RectangleCollider.new 5 5 5 ⟨0, 6, 0⟩).is_colliding (.plane unitPlane) = false ∧
    (RectangleCollider.new 5 5 5 ⟨0, 2, 0⟩).is_colliding (.plane unitPlane) = true := by
  with_unfolding_all decide

/-- Claim C7: the tick orchestration breaks the vertices-consistency
invariant: handle_gravity_collisions ends each rectangle's iteration
by assigning the Transform position directly into the collider's
origin field without recomputing the cached vertices, so on
staleWriteWorld the resulting collider has origin (0,10,0) while its
cached vertices are still those computed for the old origin (they
differ from compute_vertices at the current fields). -/
theorem direct_origin_write_stale_vertices :
    (getRectD (handleGravityCollisions staleWriteWorld) 0).origin = ⟨0, 10, 0⟩ ∧
    (getRectD (handleGravityCollisions staleWriteWorld) 0).vertices ≠
      RectangleCollider.compute_vertices
        (getRectD (handleGravityCollisions staleWriteWorld) 0).width
        (getRectD (handleGravityCollisions staleWriteWorld) 0).height
        (getRectD (handleGravityCollisions staleWriteWorld) 0).length
        (getRectD (handleGravityCollisions staleWriteWorld) 0).origin := by
  with_unfolding_all decide

/-- Claim C8: the per-tick collision stage decides snapping solely by
the Y-axis test: for EVERY box, plane, gravity table and transform
table - with no condition on the X or Z axes - if is_colliding_y
holds then the stage's pair step snaps the box's y onto the plane,
zeroes the entity's velocity, and writes the snapped origin into the
entity's Transform. -/
theorem collision_stage_y_only :
    ∀ (e : Nat) (p : StationaryPlaneCollider) (r : RectangleCollider)
      (gs : List (Nat × Gravity)) (ts : List (Nat × Transform3d)),
      r.is_colliding_y (.plane p) = true →
      collisionPairStep e p r gs ts =
        (r.snap_y (.plane p), modifyA gs e Gravity.kill_velocity,
          modifyA ts e (Transform3d.update_position (r.snap_y (.plane p)).origin)) := by
  intro e p r gs ts h
  simp [collisionPairStep, h]

/-- Witness for collision_stage_y_only: a box 100 units away from the
plane on both x and z (its x-interval test against the plane is
false) but overlapping on y is snapped and its velocity killed. -/
theorem collision_stage_y_only_witness :
    farAboveBox.is_colliding_y (.plane unitPlane) = true ∧
    farAboveBox.is_colliding_x (.plane unitPlane) = false ∧
    collisionPairStep 0 unitPlane farAboveBox
        [(0, Gravity.new ⟨0, -1, 0⟩)] [(0, ⟨⟨100, 1/2, 100⟩, Quat.one, false⟩)] =
      (farAboveBox.snap_y (.plane unitPlane),
        modifyA [(0, Gravity.new ⟨0, -1, 0⟩)] 0 Gravity.kill_velocity,
        modifyA [(0, ⟨⟨100, 1/2, 100⟩, Quat.one, false⟩)] 0
          (Transform3d.update_position (farAboveBox.snap_y (.plane unitPlane)).origin)) :=
  ⟨by with_unfolding_all decide, by with_unfolding_all decide,
    collision_stage_y_only 0 unitPlane farAboveBox
      [(0, Gravity.new ⟨0, -1, 0⟩)] [(0, ⟨⟨100, 1/2, 100⟩, Quat.one, false⟩)] (by with_unfolding_all decide)⟩

/-- Claim C9: across every sequence of new_entity and remove_entity
operations, the ids returned by new_entity are strictly increasing in
order of issue (hence pairwise distinct, and an id removed earlier is
never returned again), and the entity counter never decreases. -/
theorem entity_ids_strictly_increasing :
    ∀ ops : List WorldOp,
      ((runOps World.initial ops).2).Pairwise (· < ·) ∧
      ∀ w : World, w.entity_count ≤ (runOps w ops).1.entity_count :=
  fun ops => ⟨runOps_ids_pairwise ops World.initial, runOps_count_le ops⟩

/-- Claim C10: a Gravity created with acceleration g has zero
velocity; one update_gravity step with dt = 1 yields velocity exactly
g (the arithmetic is exact in the rational model), and kill_velocity
sets the velocity to exactly the zero vector from any state. -/
theorem gravity_unit_step_and_kill :
    (∀ g : Vec3, (Gravity.update_gravity 1 (Gravity.new g)).velocity = g) ∧
    ∀ s : Gravity, (Gravity.kill_velocity s).velocity = Vec3.zero := by
  constructor
  · intro g
    cases g
    simp [Gravity.update_gravity, Gravity.new, Vec3.add, Vec3.smul, Vec3.zero]
  · intro s
    rfl

end HeliumModel
